import Mathlib

/-!
Shallow embedding of the karrotframe navigation stack engine
(`src/packages/navigator/src/components/Stack.tsx`), the tab gesture glue
(`src/unnamed/part_000`, the Tabs component), and the activation guard.
Store actions and the gesture transition table live outside the provided
sources; those are modelled from the specification and say so in their
doc comments.  Everything else is translated directly from the TypeScript.
-/

namespace Karrotframe

/-- One concrete visit to a registered screen, as stored in the stack.
Field names follow the TypeScript `ScreenInstance` interface; the inserted
object in `Stack.tsx` carries `id`, `screenId`, `present`, `as`, and the
store maintains `nestedRouteCount`. -/
structure ScreenInstance where
  id : String
  screenId : String
  present : Bool
  asPath : String
  nestedRouteCount : Nat
deriving Repr, DecidableEq

/-- Handle for a pending close promise (`screenInstancePromises[id]`).
`popped` is the guard flag read by `popScreen`; `resolvedValues` records
every value the promise resolution fired with (`resolve(null)` appends
`none`). -/
structure PromiseHandle where
  popped : Bool
  resolvedValues : List (Option Unit)
deriving Repr, DecidableEq

/-- The store state used by `Stack.tsx`: the ordered screen-instance list,
the pointer into it, and the close-promise map (an association list keyed
by screen-instance id). -/
structure StackState where
  screenInstances : List ScreenInstance
  screenInstancePtr : Int
  screenInstancePromises : List (String × PromiseHandle)
deriving Repr, DecidableEq

/-- Payload of `pushScreen` / `replaceScreen` / `insertScreenInstance`:
`{ screenId, screenInstanceId, present, as }`. -/
structure PushPayload where
  screenId : String
  screenInstanceId : String
  present : Bool
  asPath : String
deriving Repr, DecidableEq

/-- JavaScript `list[i]` for a possibly negative index: `none` when the
index is negative or out of range. -/
def getAtInt (l : List α) (i : Int) : Option α :=
  if 0 ≤ i then l[i.toNat]? else none

/-- Apply `f` at position `n`, leave every other element alone (identity
when `n` is out of range). -/
def mapAtNat (f : α → α) : List α → Nat → List α
  | [], _ => []
  | a :: t, 0 => f a :: t
  | a :: t, n + 1 => a :: mapAtNat f t n

/-- Version of `mapAtNat` for a JavaScript-style integer index. -/
def mapAtInt (l : List α) (i : Int) (f : α → α) : List α :=
  if 0 ≤ i then mapAtNat f l i.toNat else l

/-- Index of the first element satisfying `p`, if any
(JavaScript `Array.prototype.findIndex` before its `-1` encoding). -/
def findIdxOpt (p : α → Bool) : List α → Option Nat
  | [] => none
  | a :: t => if p a then some 0 else (findIdxOpt p t).map (· + 1)

/-- JavaScript `screenInstances.findIndex((si) => si.id === screenInstanceId)`:
the first matching index, or `-1`. -/
def findIndexId (l : List ScreenInstance) (sid : String) : Int :=
  match findIdxOpt (fun si => si.id == sid) l with
  | some i => (i : Int)
  | none => -1

/-- First handle stored under `sid` (JavaScript object lookup
`screenInstancePromises[targetScreenInstanceId]`). -/
def lookupId : List (String × PromiseHandle) → String → Option PromiseHandle
  | [], _ => none
  | (k, h) :: rest, sid => if k == sid then some h else lookupId rest sid

/-- Modelled from the spec: the promise resolution performed by
`promise.resolve(null)` is defined in the store/useNavigator module, which
is not under src/.  Per the spec, pop must "resolve it with a null/close
result and mark it `popped`", and "a promise is resolved at most once ...
guarded by a `popped` flag": resolving appends the `null` result and sets
`popped := true` on the handle stored under `sid`. -/
def resolveClosePromise : List (String × PromiseHandle) → String → List (String × PromiseHandle)
  | [], _ => []
  | (k, h) :: rest, sid =>
    if k == sid then
      (k, { popped := true, resolvedValues := h.resolvedValues ++ [none] }) ::
        resolveClosePromise rest sid
    else (k, h) :: resolveClosePromise rest sid

/-- The `ScreenInstance` a push/replace payload creates; new instances
start with `nestedRouteCount = 0`. -/
def payloadInstance (p : PushPayload) : ScreenInstance :=
  { id := p.screenInstanceId
    screenId := p.screenId
    present := p.present
    asPath := p.asPath
    nestedRouteCount := 0 }

/-- Modelled from the spec: the store action `insertScreenInstance` is not
under src/ (only its callers in `Stack.tsx` are).  The spec's push contract
says "insert a new ScreenInstance at the current pointer+1 position", and
the spec's replace contract ("substitutes the entry ... at the current
pointer in place, without changing stack length or pointer", with
`replaceScreen` calling this action at `ptr - 1`) forces entries after the
insertion point to be dropped.  So `insertScreenInstance ptr p` keeps
indices `0..ptr` of the stack and appends `payloadInstance p`. -/
def insertScreenInstance (ptr : Int) (p : PushPayload) (s : StackState) : StackState :=
  { s with
      screenInstances :=
        s.screenInstances.take (ptr + 1).toNat ++ [payloadInstance p] }

/-- Modelled from the spec: store action advancing the pointer by one
("then advance the pointer by one"). -/
def increaseScreenInstancePtr (s : StackState) : StackState :=
  { s with screenInstancePtr := s.screenInstancePtr + 1 }

/-- Modelled from the spec: store action overwriting the pointer. -/
def setScreenInstancePtr (ptr : Int) (s : StackState) : StackState :=
  { s with screenInstancePtr := ptr }

/-- Modelled from the spec: store action applying `mapper` to the instance
at index `ptr` ("mutated in place (nestedRouteCount) by nested-route
events"), leaving every other entry, the pointer and the promises alone. -/
def mapScreenInstance (ptr : Int) (f : ScreenInstance → ScreenInstance)
    (s : StackState) : StackState :=
  { s with screenInstances := mapAtInt s.screenInstances ptr f }

/-- Modelled from the spec: initial store state.  The stack starts empty,
the invariant "pointer ∈ [-1, length-1]" forces the pointer to `-1`, and
no close promise is pending. -/
def initialStackState : StackState :=
  { screenInstances := [], screenInstancePtr := -1, screenInstancePromises := [] }

/-- Function `pushScreen` from `Stack.tsx` (lines 59-93): look the id up with
`findIndex`; when absent insert at the current pointer and advance, when
present just move the pointer to the found index. -/
def pushScreen (p : PushPayload) (s : StackState) : StackState :=
  let nextPtr := findIndexId s.screenInstances p.screenInstanceId
  if nextPtr = -1 then
    increaseScreenInstancePtr (insertScreenInstance s.screenInstancePtr p s)
  else
    setScreenInstancePtr nextPtr s

/-- Function `replaceScreen` from `Stack.tsx` (lines 95-120): a single
`insertScreenInstance` at `screenInstancePtr - 1`. -/
def replaceScreen (p : PushPayload) (s : StackState) : StackState :=
  insertScreenInstance (s.screenInstancePtr - 1) p s

/-- Promise half of `popScreen` (lines 130-137): when a target id is given
and its handle exists and is not yet `popped`, fire the resolution. -/
def resolveTargetPromise (target : Option String) (s : StackState) : StackState :=
  match target with
  | none => s
  | some sid =>
    match lookupId s.screenInstancePromises sid with
    | none => s
    | some pr =>
      if pr.popped then s
      else
        { s with
            screenInstancePromises := resolveClosePromise s.screenInstancePromises sid }

/-- Function `popScreen` from `Stack.tsx` (lines 122-143): resolve the target's
close promise when outstanding, then move the pointer back by `depth`. -/
def popScreen (depth : Int) (target : Option String) (s : StackState) : StackState :=
  setScreenInstancePtr (s.screenInstancePtr - depth) (resolveTargetPromise target s)

/-- A browser location as the handlers in `Stack.tsx` consume it, with the
external helpers already applied: `matchedScreenId` is the id of the
registered screen found by `matchPath` over `screens` (if any), and
`screenInstanceId` / `present` come from `getNavigatorParams` on the query
string. -/
structure HistoryLocation where
  matchedScreenId : Option String
  screenInstanceId : Option String
  present : Bool
  pathname : String
deriving Repr, DecidableEq

/-- The `useHistoryPushEffect` handler (lines 206-237): push when the URL names
a screen-instance id and matches a registered screen, otherwise bump the
pointed-to instance's `nestedRouteCount`. -/
def onHistoryPush (loc : HistoryLocation) (s : StackState) : StackState :=
  match loc.screenInstanceId, loc.matchedScreenId with
  | some sid, some scr =>
    pushScreen
      { screenId := scr, screenInstanceId := sid
        present := loc.present, asPath := loc.pathname } s
  | _, _ =>
    mapScreenInstance s.screenInstancePtr
      (fun si => { si with nestedRouteCount := si.nestedRouteCount + 1 }) s

/-- The `useHistoryReplaceEffect` handler (lines 239-262): replace when matched,
otherwise do nothing. -/
def onHistoryReplace (loc : HistoryLocation) (s : StackState) : StackState :=
  match loc.screenInstanceId, loc.matchedScreenId with
  | some sid, some scr =>
    replaceScreen
      { screenId := scr, screenInstanceId := sid
        present := loc.present, asPath := loc.pathname } s
  | _, _ => s

/-- The `useHistoryPopEffect.backward` handler (lines 264-307).  When the URL
matches and names an id: reset `nestedRouteCount` of the instance at the
current pointer, then pop `pointer - findIndex(id)` with the id as target.
Otherwise: if the instance at the pointer exists with nested count 0, pop
one screen; else decrement the nested count at the pointer. -/
def onHistoryPopBackward (loc : HistoryLocation) (s : StackState) : StackState :=
  match loc.screenInstanceId, loc.matchedScreenId with
  | some sid, some _ =>
    let nextPtr := findIndexId s.screenInstances sid
    popScreen (s.screenInstancePtr - nextPtr) (some sid)
      (mapScreenInstance s.screenInstancePtr
        (fun si => { si with nestedRouteCount := 0 }) s)
  | _, _ =>
    if (getAtInt s.screenInstances s.screenInstancePtr).any
        (fun si => si.nestedRouteCount == 0) then
      popScreen 1 none s
    else
      mapScreenInstance s.screenInstancePtr
        (fun si => { si with nestedRouteCount := si.nestedRouteCount - 1 }) s

/-- The `useHistoryPopEffect.forward` handler (lines 308-337): mirrors the
history-push handler. -/
def onHistoryPopForward (loc : HistoryLocation) (s : StackState) : StackState :=
  match loc.screenInstanceId, loc.matchedScreenId with
  | some sid, some scr =>
    pushScreen
      { screenId := scr, screenInstanceId := sid
        present := loc.present, asPath := loc.pathname } s
  | _, _ =>
    mapScreenInstance s.screenInstancePtr
      (fun si => { si with nestedRouteCount := si.nestedRouteCount + 1 }) s

/-- One programmatic stack operation, for stating properties of operation
sequences. -/
inductive StackOp where
  | push (p : PushPayload)
  | replaceOp (p : PushPayload)
  | pop (depth : Int) (target : Option String)
deriving Repr, DecidableEq

/-- Run one operation on the store. -/
def applyOp : StackOp → StackState → StackState
  | .push p, s => pushScreen p s
  | .replaceOp p, s => replaceScreen p s
  | .pop d t, s => popScreen d t s

/-- Run a sequence of operations left to right. -/
def applyOps (ops : List StackOp) (s : StackState) : StackState :=
  ops.foldl (fun st op => applyOp op st) s

/-- The pop-depth side condition the History Bridge guarantees (the spec:
"Popping past index -1 is clamped by the History Bridge, which never emits
a backward event beyond the root"): a pop's depth is at least one and never
crosses the root. -/
def opOkB (s : StackState) : StackOp → Bool
  | .pop d _ => decide (1 ≤ d) && decide (d ≤ s.screenInstancePtr + 1)
  | _ => true

/-- All pops in the sequence satisfy `opOkB` in the state they run in. -/
def validOpsB : StackState → List StackOp → Bool
  | _, [] => true
  | s, op :: rest => opOkB s op && validOpsB (applyOp op s) rest

/-- The documented stack invariant: pointer ∈ [-1, length-1]. -/
def ptrInBounds (s : StackState) : Prop :=
  -1 ≤ s.screenInstancePtr ∧
    s.screenInstancePtr ≤ (s.screenInstances.length : Int) - 1

instance (s : StackState) : Decidable (ptrInBounds s) :=
  inferInstanceAs (Decidable (_ ∧ _))

/-- Gesture state of the tab swipe machine: `idle`, `touch_started{x,y}`,
or `swipe_started` (which remembers the origin x to keep computing `dx`). -/
inductive GestureState where
  | idle
  | touchStarted (x y : Int)
  | swipeStarted (x0 dx : Int)
deriving Repr, DecidableEq

/-- Action dispatched into the machine (`TOUCH_START` / `TOUCH_MOVE` /
`TOUCH_END` in the Tabs component). -/
inductive TouchAction where
  | touchStartAct (x y : Int)
  | touchMoveAct (x y : Int)
  | touchEndAct
deriving Repr, DecidableEq

/-- Raw DOM touch event as the Tabs listeners receive it. -/
inductive TouchDomEvent where
  | touchstart (x y : Int)
  | touchmove (x y : Int)
  | touchend
deriving Repr, DecidableEq

/-- Directional threshold for recognizing a horizontal swipe. -/
def swipeThreshold : Nat := 10

/-- Modelled from the spec: the transition table built by `makeState`
(`Tabs.state`) is not under src/.  Per the spec, the machine is always
reset to `idle` on touch-end regardless of prior state; touch-start begins
a `touch_started{x,y}` sequence; while `touch_started`, a primarily
vertical drag is ignored, and a horizontal drag past the directional
threshold enters `swipe_started` with the running `dx`. -/
def gestureTransition (s : GestureState) (a : TouchAction) : GestureState :=
  match a with
  | .touchEndAct => .idle
  | .touchStartAct x y =>
    match s with
    | .idle => .touchStarted x y
    | other => other
  | .touchMoveAct x y =>
    match s with
    | .idle => .idle
    | .touchStarted x0 y0 =>
      if (x - x0).natAbs ≤ (y - y0).natAbs then .touchStarted x0 y0
      else if swipeThreshold < (x - x0).natAbs then .swipeStarted x0 (x - x0)
      else .touchStarted x0 y0
    | .swipeStarted x0 _ => .swipeStarted x0 (x - x0)

/-- The listener glue from the Tabs component (`src/unnamed/part_000`,
lines 185-218): while swiping is disabled, `onTouchStart` and `onTouchMove`
dispatch `TOUCH_END` instead of their own action; `onTouchEnd` always
dispatches `TOUCH_END`. -/
def dispatchedAction (isSwipeDisabled : Bool) : TouchDomEvent → TouchAction
  | .touchstart x y =>
    if isSwipeDisabled then .touchEndAct else .touchStartAct x y
  | .touchmove x y =>
    if isSwipeDisabled then .touchEndAct else .touchMoveAct x y
  | .touchend => .touchEndAct

/-- One DOM touch event through the listeners and the machine. -/
def handleTouchEvent (isSwipeDisabled : Bool) (s : GestureState)
    (e : TouchDomEvent) : GestureState :=
  gestureTransition s (dispatchedAction isSwipeDisabled e)

/-- A sequence of DOM touch events, delivered serially. -/
def runTouchEvents (isSwipeDisabled : Bool) (s : GestureState)
    (es : List TouchDomEvent) : GestureState :=
  es.foldl (handleTouchEvent isSwipeDisabled) s

/-- The error thrown on double activation (`Stack.tsx` line 150). -/
def doubleActivationMessage : String :=
  "한 개의 앱에는 한 개의 Navigator만 허용됩니다"

/-- Activation effect of `Stack.tsx` (lines 145-163) acting on the
`window.__KARROTFRAME__` guard flag: throw when the flag is already set,
otherwise set it.  The result is the new flag value or the thrown error. -/
def activateNavigator (guardFlag : Bool) : Except String Bool :=
  if guardFlag then Except.error doubleActivationMessage
  else Except.ok true

/-- Teardown branch of the same effect (line 161): the guard flag is reset
to `false` whatever it was. -/
def teardownNavigator (_guardFlag : Bool) : Bool := false

/-! ### Helper lemmas about the list utilities -/

theorem length_mapAtNat (f : α → α) :
    ∀ (l : List α) (n : Nat), (mapAtNat f l n).length = l.length := by
  intro l
  induction l with
  | nil => intro n; rfl
  | cons a t ih =>
    intro n
    cases n with
    | zero => simp [mapAtNat]
    | succ m => simp [mapAtNat, ih]

theorem get_mapAtNat_self (f : α → α) :
    ∀ (l : List α) (n : Nat), (mapAtNat f l n)[n]? = (l[n]?).map f := by
  intro l
  induction l with
  | nil => intro n; rfl
  | cons a t ih =>
    intro n
    cases n with
    | zero => simp [mapAtNat]
    | succ m => simp [mapAtNat, ih]

theorem get_mapAtNat_ne (f : α → α) :
    ∀ (l : List α) (n m : Nat), m ≠ n → (mapAtNat f l n)[m]? = l[m]? := by
  intro l
  induction l with
  | nil => intro n m _; rfl
  | cons a t ih =>
    intro n m hmn
    cases n with
    | zero =>
      cases m with
      | zero => exact absurd rfl hmn
      | succ m2 => simp [mapAtNat]
    | succ n2 =>
      cases m with
      | zero => simp [mapAtNat]
      | succ m2 => simp [mapAtNat, ih n2 m2 (by omega)]

theorem length_mapAtInt (l : List α) (i : Int) (f : α → α) :
    (mapAtInt l i f).length = l.length := by
  unfold mapAtInt
  by_cases hi : 0 ≤ i <;> simp [hi, length_mapAtNat]

theorem getAtInt_mapAtInt (l : List α) (i j : Int) (f : α → α) :
    getAtInt (mapAtInt l i f) j =
      if j = i then (getAtInt l j).map f else getAtInt l j := by
  unfold getAtInt mapAtInt
  by_cases hj : 0 ≤ j
  · by_cases hi : 0 ≤ i
    · by_cases hij : j = i
      · subst hij
        simp [hj, get_mapAtNat_self]
      · have hne : j.toNat ≠ i.toNat := by omega
        simp [hj, hi, hij, get_mapAtNat_ne f l i.toNat j.toNat hne]
    · have hij : ¬(j = i) := by omega
      simp [hj, hi, hij]
  · by_cases hij : j = i
    · subst hij
      simp [hj]
    · simp [hj, hij]

theorem getAtInt_neg (l : List α) (j : Int) (hj : j < 0) : getAtInt l j = none := by
  unfold getAtInt
  simp [show ¬(0 ≤ j) by omega]

theorem getAtInt_nonneg_iff (l : List α) (j : Int) (a : α) (hj : 0 ≤ j) :
    getAtInt l j = some a ↔ l[j.toNat]? = some a := by
  unfold getAtInt
  simp [hj]

theorem findIdxOpt_lt_length {p : α → Bool} :
    ∀ {l : List α} {i : Nat}, findIdxOpt p l = some i → i < l.length := by
  intro l
  induction l with
  | nil => intro i h; simp [findIdxOpt] at h
  | cons a t ih =>
    intro i h
    unfold findIdxOpt at h
    by_cases hp : p a
    · simp [hp] at h
      simp only [List.length_cons]
      omega
    · simp [hp] at h
      cases hf : findIdxOpt p t with
      | none => rw [hf] at h; simp at h
      | some j =>
        rw [hf] at h
        simp at h
        have := ih hf
        simp only [List.length_cons]
        omega

theorem findIdxOpt_get {p : α → Bool} :
    ∀ {l : List α} {i : Nat}, findIdxOpt p l = some i →
      ∃ a, l[i]? = some a ∧ p a = true := by
  intro l
  induction l with
  | nil => intro i h; simp [findIdxOpt] at h
  | cons a t ih =>
    intro i h
    unfold findIdxOpt at h
    by_cases hp : p a
    · simp [hp] at h
      exact ⟨a, by simp [← h], hp⟩
    · simp [hp] at h
      cases hf : findIdxOpt p t with
      | none => rw [hf] at h; simp at h
      | some j =>
        rw [hf] at h
        simp at h
        obtain ⟨b, hb, hpb⟩ := ih hf
        exact ⟨b, by simp [← h, hb], hpb⟩

theorem findIdxOpt_append_some {p : α → Bool} :
    ∀ {l1 : List α} (l2 : List α) {i : Nat},
      findIdxOpt p l1 = some i → findIdxOpt p (l1 ++ l2) = some i := by
  intro l1
  induction l1 with
  | nil => intro l2 i h; simp [findIdxOpt] at h
  | cons a t ih =>
    intro l2 i h
    unfold findIdxOpt at h
    by_cases hp : p a
    · simp [hp] at h
      simp [findIdxOpt, hp, ← h]
    · simp [hp] at h
      cases hf : findIdxOpt p t with
      | none => rw [hf] at h; simp at h
      | some j =>
        rw [hf] at h
        simp at h
        simp [findIdxOpt, hp, ih l2 hf, ← h]

theorem findIdxOpt_take_of_lt {p : α → Bool} :
    ∀ {l : List α} {i n : Nat}, findIdxOpt p l = some i → i < n →
      findIdxOpt p (l.take n) = some i := by
  intro l
  induction l with
  | nil => intro i n h _; simp [findIdxOpt] at h
  | cons a t ih =>
    intro i n h hin
    cases n with
    | zero => omega
    | succ m =>
      unfold findIdxOpt at h
      by_cases hp : p a
      · simp [hp] at h
        simp [List.take, findIdxOpt, hp, ← h]
      · simp [hp] at h
        cases hf : findIdxOpt p t with
        | none => rw [hf] at h; simp at h
        | some j =>
          rw [hf] at h
          simp at h
          have hjm : j < m := by omega
          simp [List.take, findIdxOpt, hp, ih hf hjm, ← h]

theorem findIndexId_of_found {l : List ScreenInstance} {sid : String} {i : Nat}
    (h : findIdxOpt (fun si => si.id == sid) l = some i) :
    findIndexId l sid = (i : Int) := by
  unfold findIndexId
  rw [h]

theorem findIndexId_of_missing {l : List ScreenInstance} {sid : String}
    (h : findIdxOpt (fun si => si.id == sid) l = none) :
    findIndexId l sid = -1 := by
  unfold findIndexId
  rw [h]

theorem lookupId_resolve (ps : List (String × PromiseHandle)) (sid : String) :
    lookupId (resolveClosePromise ps sid) sid =
      (lookupId ps sid).map
        (fun h => { popped := true, resolvedValues := h.resolvedValues ++ [none] }) := by
  induction ps with
  | nil => rfl
  | cons kh rest ih =>
    obtain ⟨k, h⟩ := kh
    cases hk : k == sid with
    | true => simp [resolveClosePromise, lookupId, hk]
    | false => simp [resolveClosePromise, lookupId, hk, ih]

/-! ### Component lemmas for the engine operations -/

theorem resolveTargetPromise_screenInstances (t : Option String) (s : StackState) :
    (resolveTargetPromise t s).screenInstances = s.screenInstances := by
  cases t with
  | none => rfl
  | some sid =>
    unfold resolveTargetPromise
    cases hl : lookupId s.screenInstancePromises sid with
    | none => simp [hl]
    | some pr => cases hp : pr.popped <;> simp [hl, hp]

theorem resolveTargetPromise_ptr (t : Option String) (s : StackState) :
    (resolveTargetPromise t s).screenInstancePtr = s.screenInstancePtr := by
  cases t with
  | none => rfl
  | some sid =>
    unfold resolveTargetPromise
    cases hl : lookupId s.screenInstancePromises sid with
    | none => simp [hl]
    | some pr => cases hp : pr.popped <;> simp [hl, hp]

theorem popScreen_screenInstances (d : Int) (t : Option String) (s : StackState) :
    (popScreen d t s).screenInstances = s.screenInstances := by
  unfold popScreen setScreenInstancePtr
  simp [resolveTargetPromise_screenInstances]

theorem popScreen_ptr (d : Int) (t : Option String) (s : StackState) :
    (popScreen d t s).screenInstancePtr = s.screenInstancePtr - d := rfl

theorem popScreen_promises_outstanding (d : Int) (sid : String) (s : StackState)
    (pr : PromiseHandle) (hpr : lookupId s.screenInstancePromises sid = some pr)
    (hpop : pr.popped = false) :
    (popScreen d (some sid) s).screenInstancePromises =
      resolveClosePromise s.screenInstancePromises sid := by
  unfold popScreen setScreenInstancePtr resolveTargetPromise
  simp [hpr, hpop]

theorem popScreen_promises_popped (d : Int) (sid : String) (s : StackState)
    (pr : PromiseHandle) (hpr : lookupId s.screenInstancePromises sid = some pr)
    (hpop : pr.popped = true) :
    (popScreen d (some sid) s).screenInstancePromises =
      s.screenInstancePromises := by
  unfold popScreen setScreenInstancePtr resolveTargetPromise
  simp [hpr, hpop]

theorem mapScreenInstance_ptr (i : Int) (f : ScreenInstance → ScreenInstance)
    (s : StackState) :
    (mapScreenInstance i f s).screenInstancePtr = s.screenInstancePtr := rfl

theorem mapScreenInstance_promises (i : Int) (f : ScreenInstance → ScreenInstance)
    (s : StackState) :
    (mapScreenInstance i f s).screenInstancePromises = s.screenInstancePromises := rfl

theorem mapScreenInstance_length (i : Int) (f : ScreenInstance → ScreenInstance)
    (s : StackState) :
    (mapScreenInstance i f s).screenInstances.length = s.screenInstances.length := by
  unfold mapScreenInstance
  simp [length_mapAtInt]

theorem pushScreen_found {s : StackState} {p : PushPayload} {i : Nat}
    (h : findIdxOpt (fun si => si.id == p.screenInstanceId) s.screenInstances = some i) :
    pushScreen p s = setScreenInstancePtr (i : Int) s := by
  unfold pushScreen
  rw [findIndexId_of_found h]
  have hne : ¬((i : Int) = -1) := by omega
  simp [hne]

theorem pushScreen_missing {s : StackState} {p : PushPayload}
    (h : findIdxOpt (fun si => si.id == p.screenInstanceId) s.screenInstances = none) :
    pushScreen p s =
      increaseScreenInstancePtr (insertScreenInstance s.screenInstancePtr p s) := by
  unfold pushScreen
  rw [findIndexId_of_missing h]
  simp

theorem onHistoryPush_matched {loc : HistoryLocation} {sid scr : String}
    (h1 : loc.screenInstanceId = some sid) (h2 : loc.matchedScreenId = some scr)
    (s : StackState) :
    onHistoryPush loc s =
      pushScreen
        { screenId := scr, screenInstanceId := sid
          present := loc.present, asPath := loc.pathname } s := by
  unfold onHistoryPush
  rw [h1, h2]

theorem onHistoryPush_unmatched {loc : HistoryLocation}
    (h2 : loc.matchedScreenId = none) (s : StackState) :
    onHistoryPush loc s =
      mapScreenInstance s.screenInstancePtr
        (fun si => { si with nestedRouteCount := si.nestedRouteCount + 1 }) s := by
  unfold onHistoryPush
  cases h1 : loc.screenInstanceId <;> rw [h2]

theorem onHistoryPopBackward_matched {loc : HistoryLocation} {sid scr : String}
    (h1 : loc.screenInstanceId = some sid) (h2 : loc.matchedScreenId = some scr)
    (s : StackState) :
    onHistoryPopBackward loc s =
      popScreen (s.screenInstancePtr - findIndexId s.screenInstances sid) (some sid)
        (mapScreenInstance s.screenInstancePtr
          (fun si => { si with nestedRouteCount := 0 }) s) := by
  unfold onHistoryPopBackward
  rw [h1, h2]

/-! ### C8: single-instance activation guard -/

/-- C8: activating the navigation engine while another instance is active
on the page raises the fatal double-activation error immediately; a fresh
activation sets the guard flag to `true`, teardown resets it to `false`,
and after a successful activation followed by teardown a new activation
succeeds again. -/
theorem C8_single_instance_guard :
    activateNavigator true = Except.error doubleActivationMessage ∧
    activateNavigator false = Except.ok true ∧
    teardownNavigator true = false ∧
    activateNavigator (teardownNavigator true) = Except.ok true :=
  ⟨rfl, rfl, rfl, rfl⟩

/-! ### C9: disabled gesture processing never starts a swipe -/

theorem touch_disabled_forces_idle (s : GestureState) (e : TouchDomEvent) :
    handleTouchEvent true s e = GestureState.idle := by
  cases e <;> rfl

theorem runTouchEvents_disabled_idle :
    ∀ (es : List TouchDomEvent), es ≠ [] → ∀ (s : GestureState),
      runTouchEvents true s es = GestureState.idle := by
  intro es
  induction es with
  | nil => intro h; exact absurd rfl h
  | cons e t ih =>
    intro _ s
    show runTouchEvents true (handleTouchEvent true s e) t = GestureState.idle
    cases t with
    | nil => exact touch_disabled_forces_idle s e
    | cons e2 t2 => exact ih (by simp) _

/-- C9: while gesture processing is disabled, every incoming touch-start
and touch-move (and touch-end) is dispatched to the state machine as an
immediate `TOUCH_END`, each such event forces the machine to `idle`, and
after any nonempty sequence of events processed while disabled the state
is `idle` — in particular the machine never enters `swipe_started` for the
entire time swiping is disabled. -/
theorem C9_disabled_gesture_forces_idle (s : GestureState)
    (es : List TouchDomEvent) (n : Nat) (hn : 0 < n) (hlen : n ≤ es.length) :
    (∀ e, dispatchedAction true e = TouchAction.touchEndAct) ∧
    (∀ s0 e, handleTouchEvent true s0 e = GestureState.idle) ∧
    runTouchEvents true s (es.take n) = GestureState.idle ∧
    (∀ x0 dx, runTouchEvents true s (es.take n) ≠ GestureState.swipeStarted x0 dx) := by
  have htake : es.take n ≠ [] := by
    have hl : (es.take n).length = min n es.length := List.length_take n es
    intro hnil
    rw [hnil] at hl
    simp at hl
    omega
  refine ⟨?_, ?_, ?_, ?_⟩
  · intro e
    cases e <;> rfl
  · intro s0 e
    exact touch_disabled_forces_idle s0 e
  · exact runTouchEvents_disabled_idle _ htake s
  · intro x0 dx
    rw [runTouchEvents_disabled_idle _ htake s]
    intro hcontra
    exact GestureState.noConfusion hcontra

/-- Witness for C9 at a concrete two-event sequence (a touch-start
followed by a horizontal touch-move that would normally start a swipe). -/
theorem C9_witness :
    0 < 2 ∧
    2 ≤ ([TouchDomEvent.touchstart 0 0, TouchDomEvent.touchmove 80 0]).length ∧
    runTouchEvents true GestureState.idle
        (([TouchDomEvent.touchstart 0 0, TouchDomEvent.touchmove 80 0]).take 2) =
      GestureState.idle :=
  ⟨by decide, by decide,
    (C9_disabled_gesture_forces_idle GestureState.idle
      [TouchDomEvent.touchstart 0 0, TouchDomEvent.touchmove 80 0] 2
      (by decide) (by decide)).2.2.1⟩

/-! ### C7: close promises resolve exactly once -/

/-- C7: for an instance with an outstanding close promise (handle present,
not yet popped), the first pop targeting its id fires the resolution
exactly once — the handle records the single `null` result and is marked
`popped` — and a second pop targeting the same id (a stale backward event)
leaves the promise map unchanged. -/
theorem C7_close_promise_resolves_once (s : StackState) (sid : String)
    (rv : List (Option Unit))
    (hout : lookupId s.screenInstancePromises sid =
      some { popped := false, resolvedValues := rv })
    (d1 d2 : Int) :
    lookupId (popScreen d1 (some sid) s).screenInstancePromises sid =
      some { popped := true, resolvedValues := rv ++ [none] } ∧
    (popScreen d2 (some sid) (popScreen d1 (some sid) s)).screenInstancePromises =
      (popScreen d1 (some sid) s).screenInstancePromises := by
  have h1 : (popScreen d1 (some sid) s).screenInstancePromises =
      resolveClosePromise s.screenInstancePromises sid :=
    popScreen_promises_outstanding d1 sid s _ hout rfl
  have h2 : lookupId (popScreen d1 (some sid) s).screenInstancePromises sid =
      some { popped := true, resolvedValues := rv ++ [none] } := by
    rw [h1, lookupId_resolve, hout]
    rfl
  exact ⟨h2, popScreen_promises_popped d2 sid _ _ h2 rfl⟩

/-- A state with one outstanding close promise for id `"X"`. -/
def c7State : StackState :=
  { screenInstances := []
    screenInstancePtr := 0
    screenInstancePromises := [("X", { popped := false, resolvedValues := [] })] }

/-- Witness for C7: popping `"X"` twice on `c7State` resolves once. -/
theorem C7_witness :
    lookupId c7State.screenInstancePromises ("X") =
      some { popped := false, resolvedValues := [] } ∧
    lookupId (popScreen 1 (some ("X")) c7State).screenInstancePromises ("X") =
      some { popped := true, resolvedValues := [] ++ [none] } ∧
    (popScreen 1 (some ("X")) (popScreen 1 (some ("X")) c7State)).screenInstancePromises =
      (popScreen 1 (some ("X")) c7State).screenInstancePromises :=
  ⟨by decide,
    (C7_close_promise_resolves_once c7State ("X") [] (by decide) 1 1).1,
    (C7_close_promise_resolves_once c7State ("X") [] (by decide) 1 1).2⟩

/-! ### C1: push is idempotent on an existing id, inserts otherwise -/

/-- C1: under the documented stack invariant, pushing a `screenInstanceId`
already present in the stack leaves the stack (hence its length) unchanged
and moves the pointer to the index of that existing instance; pushing an
id not present in the stack puts the new instance at index `pointer + 1`,
keeps every entry at indices `0..pointer`, and advances the pointer by
exactly one. -/
theorem C1_push_idempotent (s : StackState) (p : PushPayload) (hb : ptrInBounds s) :
    (∀ i : Nat,
      findIdxOpt (fun si => si.id == p.screenInstanceId) s.screenInstances = some i →
        (pushScreen p s).screenInstances = s.screenInstances ∧
        (pushScreen p s).screenInstancePtr = (i : Int) ∧
        ∃ si, s.screenInstances[i]? = some si ∧ si.id = p.screenInstanceId) ∧
    (findIdxOpt (fun si => si.id == p.screenInstanceId) s.screenInstances = none →
      (pushScreen p s).screenInstancePtr = s.screenInstancePtr + 1 ∧
      getAtInt (pushScreen p s).screenInstances (s.screenInstancePtr + 1) =
        some (payloadInstance p) ∧
      (∀ j : Int, 0 ≤ j → j ≤ s.screenInstancePtr →
        getAtInt (pushScreen p s).screenInstances j = getAtInt s.screenInstances j)) := by
  obtain ⟨hb1, hb2⟩ := hb
  constructor
  · intro i hfound
    rw [pushScreen_found hfound]
    refine ⟨rfl, rfl, ?_⟩
    obtain ⟨si, hsi, hpa⟩ := findIdxOpt_get hfound
    exact ⟨si, hsi, by simpa using hpa⟩
  · intro hmiss
    rw [pushScreen_missing hmiss]
    have hnn : (0 : Int) ≤ s.screenInstancePtr + 1 := by omega
    have hlen : (s.screenInstances.take (s.screenInstancePtr + 1).toNat).length =
        (s.screenInstancePtr + 1).toNat := by
      rw [List.length_take]
      omega
    refine ⟨rfl, ?_, ?_⟩
    · show getAtInt
        (s.screenInstances.take (s.screenInstancePtr + 1).toNat ++ [payloadInstance p])
        (s.screenInstancePtr + 1) = some (payloadInstance p)
      simp [getAtInt, hnn, List.getElem?_append, hlen]
    · intro j hj0 hjle
      have hjt : j.toNat < (s.screenInstancePtr + 1).toNat := by omega
      show getAtInt
        (s.screenInstances.take (s.screenInstancePtr + 1).toNat ++ [payloadInstance p]) j =
        getAtInt s.screenInstances j
      simp [getAtInt, hj0, List.getElem?_append, hlen, hjt, List.getElem?_take]

/-- Stack entry used by the concrete scenarios. -/
def instA : ScreenInstance :=
  { id := "A", screenId := "scrHome", present := false
    asPath := "/a", nestedRouteCount := 0 }

/-- Second stack entry used by the concrete scenarios. -/
def instB : ScreenInstance :=
  { id := "B", screenId := "scrDetail", present := false
    asPath := "/b", nestedRouteCount := 0 }

/-- Payload whose id `"A"` already sits in the demo stacks. -/
def pushA : PushPayload :=
  { screenId := "scrHome", screenInstanceId := "A", present := false, asPath := "/a" }

/-- Payload with the fresh id `"C"`. -/
def pushC : PushPayload :=
  { screenId := "scrNew", screenInstanceId := "C", present := false, asPath := "/c" }

/-- One-entry demo state with the pointer on `"A"`. -/
def c1State : StackState :=
  { screenInstances := [instA], screenInstancePtr := 0, screenInstancePromises := [] }

/-- Witness for C1: pushing the already-present id `"A"` on `c1State`
leaves the stack unchanged and keeps the pointer at index 0. -/
theorem C1_witness :
    ptrInBounds c1State ∧
    (pushScreen pushA c1State).screenInstances = c1State.screenInstances ∧
    (pushScreen pushA c1State).screenInstancePtr = ((0 : Nat) : Int) :=
  ⟨by decide,
    ((C1_push_idempotent c1State pushA (by decide)).1 0 (by decide)).1,
    ((C1_push_idempotent c1State pushA (by decide)).1 0 (by decide)).2.1⟩

/-! ### C2: replace -/

/-- Two-entry demo state with the pointer at the bottom (forward history
above it). -/
def c2State : StackState :=
  { screenInstances := [instA, instB], screenInstancePtr := 0, screenInstancePromises := [] }

/-- C2 counterexample: on the non-empty stack `[A, B]` with pointer 0,
`replaceScreen` does not leave the stack length unchanged — the stack
collapses to the single new entry, so the claim fails as stated for
stacks with entries above the pointer. -/
theorem C2_counterexample :
    ¬ ((replaceScreen pushC c2State).screenInstances.length =
        c2State.screenInstances.length) := by decide

/-- C2 (amended): when the pointer sits at the top of the stack
(pointer = length − 1 ≥ 0, i.e. no forward history), replace substitutes
the entry at the current pointer position in place: the stack keeps its
length, the pointer is unchanged, the entry at the pointer becomes the new
instance, and every entry below the pointer is untouched. -/
theorem C2_replace_in_place_at_top (s : StackState) (p : PushPayload)
    (h0 : 0 ≤ s.screenInstancePtr)
    (htop : s.screenInstancePtr = (s.screenInstances.length : Int) - 1) :
    (replaceScreen p s).screenInstances.length = s.screenInstances.length ∧
    (replaceScreen p s).screenInstancePtr = s.screenInstancePtr ∧
    getAtInt (replaceScreen p s).screenInstances s.screenInstancePtr =
      some (payloadInstance p) ∧
    (∀ j : Int, 0 ≤ j → j < s.screenInstancePtr →
      getAtInt (replaceScreen p s).screenInstances j = getAtInt s.screenInstances j) := by
  have hlen : (s.screenInstances.take (s.screenInstancePtr - 1 + 1).toNat).length =
      s.screenInstancePtr.toNat := by
    rw [List.length_take]
    omega
  have hstack : (replaceScreen p s).screenInstances =
      s.screenInstances.take (s.screenInstancePtr - 1 + 1).toNat ++ [payloadInstance p] := rfl
  refine ⟨?_, rfl, ?_, ?_⟩
  · rw [hstack, List.length_append, hlen, List.length_singleton]
    omega
  · rw [hstack]
    unfold getAtInt
    rw [if_pos h0, List.getElem?_append, hlen]
    have : ¬(s.screenInstancePtr.toNat < s.screenInstancePtr.toNat) := by omega
    rw [if_neg this]
    simp
  · intro j hj0 hjlt
    rw [hstack]
    unfold getAtInt
    rw [if_pos hj0, if_pos hj0, List.getElem?_append, hlen]
    have hjt : j.toNat < s.screenInstancePtr.toNat := by omega
    rw [if_pos hjt, List.getElem?_take]
    have hjt2 : j.toNat < (s.screenInstancePtr - 1 + 1).toNat := by omega
    rw [if_pos hjt2]

/-- Top-pointer demo state for the amended C2. -/
def c2TopState : StackState :=
  { screenInstances := [instA, instB], screenInstancePtr := 1, screenInstancePromises := [] }

/-- Witness for the amended C2: replacing on `[A, B]` with pointer 1 keeps
length 2 and pointer 1 and swaps the top entry for the new instance. -/
theorem C2_witness :
    (0 : Int) ≤ c2TopState.screenInstancePtr ∧
    c2TopState.screenInstancePtr = (c2TopState.screenInstances.length : Int) - 1 ∧
    (replaceScreen pushC c2TopState).screenInstances.length =
      c2TopState.screenInstances.length ∧
    getAtInt (replaceScreen pushC c2TopState).screenInstances
        c2TopState.screenInstancePtr = some (payloadInstance pushC) :=
  ⟨by decide, by decide,
    (C2_replace_in_place_at_top c2TopState pushC (by decide) (by decide)).1,
    (C2_replace_in_place_at_top c2TopState pushC (by decide) (by decide)).2.2.1⟩

/-! ### C5: nested-route isolation -/

/-- C5: a history-push event whose URL does not match any registered
screen leaves the stack length, the pointer and every instance other than
the pointed-to one unchanged, and increments the pointed-to instance's
`nestedRouteCount` by exactly 1. -/
theorem C5_nested_route_isolation (s : StackState) (loc : HistoryLocation)
    (hm : loc.matchedScreenId = none) :
    (onHistoryPush loc s).screenInstances.length = s.screenInstances.length ∧
    (onHistoryPush loc s).screenInstancePtr = s.screenInstancePtr ∧
    (∀ j : Int, j ≠ s.screenInstancePtr →
      getAtInt (onHistoryPush loc s).screenInstances j = getAtInt s.screenInstances j) ∧
    (∀ si, getAtInt s.screenInstances s.screenInstancePtr = some si →
      getAtInt (onHistoryPush loc s).screenInstances s.screenInstancePtr =
        some { si with nestedRouteCount := si.nestedRouteCount + 1 }) := by
  rw [onHistoryPush_unmatched hm]
  refine ⟨mapScreenInstance_length _ _ _, rfl, ?_, ?_⟩
  · intro j hj
    show getAtInt (mapAtInt s.screenInstances s.screenInstancePtr
        (fun si => { si with nestedRouteCount := si.nestedRouteCount + 1 })) j =
      getAtInt s.screenInstances j
    rw [getAtInt_mapAtInt, if_neg hj]
  · intro si hsi
    show getAtInt (mapAtInt s.screenInstances s.screenInstancePtr
        (fun si => { si with nestedRouteCount := si.nestedRouteCount + 1 }))
        s.screenInstancePtr =
      some { si with nestedRouteCount := si.nestedRouteCount + 1 }
    rw [getAtInt_mapAtInt, if_pos rfl, hsi]
    rfl

/-- Demo state for C5: one instance with two nested routes. -/
def c5State : StackState :=
  { screenInstances := [{ instA with nestedRouteCount := 2 }]
    screenInstancePtr := 0
    screenInstancePromises := [] }

/-- A location that matches no registered screen. -/
def c5Loc : HistoryLocation :=
  { matchedScreenId := none, screenInstanceId := some ("X")
    present := false, pathname := "/nested" }

/-- Witness for C5: the unmatched push bumps the nested count 2 → 3 and
keeps length and pointer. -/
theorem C5_witness :
    c5Loc.matchedScreenId = none ∧
    (onHistoryPush c5Loc c5State).screenInstances.length =
      c5State.screenInstances.length ∧
    getAtInt (onHistoryPush c5Loc c5State).screenInstances
        c5State.screenInstancePtr = some { instA with nestedRouteCount := 3 } :=
  ⟨rfl,
    (C5_nested_route_isolation c5State c5Loc rfl).1,
    (C5_nested_route_isolation c5State c5Loc rfl).2.2.2
      { instA with nestedRouteCount := 2 } (by decide)⟩

/-! ### C3: backward history-pop with a target id found in the stack -/

/-- Demo stack entry A carrying five nested routes. -/
def c3A : ScreenInstance := { instA with nestedRouteCount := 5 }

/-- Demo stack entry B carrying seven nested routes. -/
def c3B : ScreenInstance := { instB with nestedRouteCount := 7 }

/-- State `[A(5 nested), B(7 nested)]` with the pointer on B. -/
def c3State : StackState :=
  { screenInstances := [c3A, c3B], screenInstancePtr := 1, screenInstancePromises := [] }

/-- A backward location resolving to A's URL. -/
def c3Loc : HistoryLocation :=
  { matchedScreenId := some ("scrHome"), screenInstanceId := some ("A")
    present := false, pathname := "/a" }

/-- C3 counterexample: on `[A(5), B(7)]` with pointer 1, a backward event
resolving to A (the target, at index 0) leaves A's `nestedRouteCount` at 5
— it is not reset to 0 as the claim states; the handler resets the
instance at the current pointer (B) instead. -/
theorem C3_counterexample :
    (getAtInt (onHistoryPopBackward c3Loc c3State).screenInstances 0).map
        (fun si => si.nestedRouteCount) = some 5 ∧
    ¬ ((getAtInt (onHistoryPopBackward c3Loc c3State).screenInstances 0).map
        (fun si => si.nestedRouteCount) = some 0) := by decide

/-- C3 (amended): when a backward history-pop resolves to a URL whose
screen-instance id sits in the stack at index `targetIndex`, the handler
resets the `nestedRouteCount` of the instance at the *current pointer*
(not the target) to 0, leaves every other instance and the stack length
unchanged, pops with depth `pointer - targetIndex` (the pointer lands on
`targetIndex`), and passes the target id for close-promise resolution (an
outstanding handle for the target is resolved with null and marked
popped).  In the concrete scenario stack = [A, B], pointer = 1, a backward
event resolving to A leaves the length at 2, sets the pointer to 0, and
resets B's `nestedRouteCount` to 0. -/
theorem C3_backward_resets_pointer_instance (s : StackState) (loc : HistoryLocation)
    (sid scr : String) (t : Nat)
    (h1 : loc.screenInstanceId = some sid) (h2 : loc.matchedScreenId = some scr)
    (hfind : findIdxOpt (fun si => si.id == sid) s.screenInstances = some t) :
    (onHistoryPopBackward loc s).screenInstances.length = s.screenInstances.length ∧
    (onHistoryPopBackward loc s).screenInstancePtr = (t : Int) ∧
    (∀ si, getAtInt s.screenInstances s.screenInstancePtr = some si →
      getAtInt (onHistoryPopBackward loc s).screenInstances s.screenInstancePtr =
        some { si with nestedRouteCount := 0 }) ∧
    (∀ j : Int, j ≠ s.screenInstancePtr →
      getAtInt (onHistoryPopBackward loc s).screenInstances j =
        getAtInt s.screenInstances j) ∧
    (∀ h : PromiseHandle, lookupId s.screenInstancePromises sid = some h →
      h.popped = false →
      lookupId (onHistoryPopBackward loc s).screenInstancePromises sid =
        some { popped := true, resolvedValues := h.resolvedValues ++ [none] }) := by
  rw [onHistoryPopBackward_matched h1 h2, findIndexId_of_found hfind]
  refine ⟨?_, ?_, ?_, ?_, ?_⟩
  · rw [popScreen_screenInstances, mapScreenInstance_length]
  · rw [popScreen_ptr, mapScreenInstance_ptr]
    omega
  · intro si hsi
    rw [popScreen_screenInstances]
    show getAtInt (mapAtInt s.screenInstances s.screenInstancePtr
        (fun si => { si with nestedRouteCount := 0 })) s.screenInstancePtr =
      some { si with nestedRouteCount := 0 }
    rw [getAtInt_mapAtInt, if_pos rfl, hsi]
    rfl
  · intro j hj
    rw [popScreen_screenInstances]
    show getAtInt (mapAtInt s.screenInstances s.screenInstancePtr
        (fun si => { si with nestedRouteCount := 0 })) j =
      getAtInt s.screenInstances j
    rw [getAtInt_mapAtInt, if_neg hj]
  · intro h hh hpop
    rw [popScreen_promises_outstanding (s.screenInstancePtr - (t : Int)) sid
        (mapScreenInstance s.screenInstancePtr
          (fun si => { si with nestedRouteCount := 0 }) s) h hh hpop]
    show lookupId (resolveClosePromise s.screenInstancePromises sid) sid =
      some { popped := true, resolvedValues := h.resolvedValues ++ [none] }
    rw [lookupId_resolve, hh]
    rfl

/-- The spec's concrete scenario state: `[A, B(3 nested)]`, pointer on B. -/
def c3WitState : StackState :=
  { screenInstances := [instA, { instB with nestedRouteCount := 3 }]
    screenInstancePtr := 1
    screenInstancePromises := [] }

/-- Witness for the amended C3 on the spec's scenario: backward to A keeps
length 2, moves the pointer to 0 and resets B's nested count to 0. -/
theorem C3_witness :
    findIdxOpt (fun si => si.id == "A") c3WitState.screenInstances = some 0 ∧
    (onHistoryPopBackward c3Loc c3WitState).screenInstances.length =
      c3WitState.screenInstances.length ∧
    (onHistoryPopBackward c3Loc c3WitState).screenInstancePtr = ((0 : Nat) : Int) ∧
    getAtInt (onHistoryPopBackward c3Loc c3WitState).screenInstances
        c3WitState.screenInstancePtr = some { instB with nestedRouteCount := 0 } :=
  ⟨by decide,
    (C3_backward_resets_pointer_instance c3WitState c3Loc ("A") ("scrHome") 0
      rfl rfl (by decide)).1,
    (C3_backward_resets_pointer_instance c3WitState c3Loc ("A") ("scrHome") 0
      rfl rfl (by decide)).2.1,
    (C3_backward_resets_pointer_instance c3WitState c3Loc ("A") ("scrHome") 0
      rfl rfl (by decide)).2.2.1 { instB with nestedRouteCount := 3 } (by decide)⟩

/-! ### C10: backward history-pop with an unknown target id -/

/-- C10: a backward history-pop event that matches a registered screen and
carries a screen-instance id not present in the stack pops with depth
`pointer - (-1) = pointer + 1`, so the pointer lands at -1, the stack
length is unchanged, and no entry's index is ≤ the pointer any more
(every entry is deactivated). -/
theorem C10_backward_unknown_id (s : StackState) (loc : HistoryLocation)
    (sid scr : String)
    (h1 : loc.screenInstanceId = some sid) (h2 : loc.matchedScreenId = some scr)
    (hmiss : findIdxOpt (fun si => si.id == sid) s.screenInstances = none)
    (hp : 0 ≤ s.screenInstancePtr) :
    (onHistoryPopBackward loc s).screenInstancePtr =
      s.screenInstancePtr - (s.screenInstancePtr + 1) ∧
    (onHistoryPopBackward loc s).screenInstancePtr = -1 ∧
    (onHistoryPopBackward loc s).screenInstances.length = s.screenInstances.length ∧
    (∀ j : Nat, ¬ ((j : Int) ≤ (onHistoryPopBackward loc s).screenInstancePtr)) := by
  rw [onHistoryPopBackward_matched h1 h2, findIndexId_of_missing hmiss]
  have hptr : (popScreen (s.screenInstancePtr - -1) (some sid)
      (mapScreenInstance s.screenInstancePtr
        (fun si => { si with nestedRouteCount := 0 }) s)).screenInstancePtr = -1 := by
    rw [popScreen_ptr, mapScreenInstance_ptr]
    omega
  refine ⟨?_, hptr, ?_, ?_⟩
  · rw [popScreen_ptr, mapScreenInstance_ptr]
    omega
  · rw [popScreen_screenInstances, mapScreenInstance_length]
  · intro j
    rw [hptr]
    omega

/-- A backward location carrying the unknown id `"Z"`. -/
def c10Loc : HistoryLocation :=
  { matchedScreenId := some ("scrHome"), screenInstanceId := some ("Z")
    present := false, pathname := "/z" }

/-- Witness for C10 on `[A, B]` with pointer 0: the unknown-id backward
event drives the pointer to -1. -/
theorem C10_witness :
    findIdxOpt (fun si => si.id == "Z") c2State.screenInstances = none ∧
    (0 : Int) ≤ c2State.screenInstancePtr ∧
    (onHistoryPopBackward c10Loc c2State).screenInstancePtr = -1 :=
  ⟨by decide, by decide,
    (C10_backward_unknown_id c2State c10Loc ("Z") ("scrHome") rfl rfl
      (by decide) (by decide)).2.1⟩

/-! ### C6: push then one backward event is a round trip -/

/-- C6: pushing a new instance (fresh id) and then immediately processing
one backward history event resolving to the previous top's URL returns the
pointer to its pre-push value and leaves the previous top instance — in
particular its `nestedRouteCount` — exactly as it was before the push. -/
theorem C6_push_then_backward_roundtrip (s : StackState) (p : PushPayload)
    (loc : HistoryLocation) (prevTop : ScreenInstance) (scr : String)
    (htop : getAtInt s.screenInstances s.screenInstancePtr = some prevTop)
    (hfirst : findIdxOpt (fun si => si.id == prevTop.id) s.screenInstances =
      some s.screenInstancePtr.toNat)
    (hfresh : findIdxOpt (fun si => si.id == p.screenInstanceId) s.screenInstances = none)
    (hloc1 : loc.screenInstanceId = some prevTop.id)
    (hloc2 : loc.matchedScreenId = some scr) :
    (onHistoryPopBackward loc (pushScreen p s)).screenInstancePtr =
      s.screenInstancePtr ∧
    getAtInt (onHistoryPopBackward loc (pushScreen p s)).screenInstances
        s.screenInstancePtr = some prevTop := by
  have hp0 : 0 ≤ s.screenInstancePtr := by
    by_contra hneg
    rw [getAtInt_neg _ _ (by omega)] at htop
    exact Option.noConfusion htop
  have hlt : s.screenInstancePtr.toNat < s.screenInstances.length :=
    findIdxOpt_lt_length hfirst
  rw [pushScreen_missing hfresh, onHistoryPopBackward_matched hloc1 hloc2]
  have e1 : (increaseScreenInstancePtr
      (insertScreenInstance s.screenInstancePtr p s)).screenInstancePtr =
      s.screenInstancePtr + 1 := rfl
  have e2 : (increaseScreenInstancePtr
      (insertScreenInstance s.screenInstancePtr p s)).screenInstances =
      s.screenInstances.take (s.screenInstancePtr + 1).toNat ++ [payloadInstance p] := rfl
  have hfi : findIndexId
      (increaseScreenInstancePtr
        (insertScreenInstance s.screenInstancePtr p s)).screenInstances
      prevTop.id = (s.screenInstancePtr.toNat : Int) := by
    rw [e2]
    exact findIndexId_of_found
      (findIdxOpt_append_some _ (findIdxOpt_take_of_lt hfirst (by omega)))
  rw [hfi]
  constructor
  · rw [popScreen_ptr, mapScreenInstance_ptr, e1]
    omega
  · rw [popScreen_screenInstances]
    show getAtInt (mapAtInt
        (increaseScreenInstancePtr
          (insertScreenInstance s.screenInstancePtr p s)).screenInstances
        (increaseScreenInstancePtr
          (insertScreenInstance s.screenInstancePtr p s)).screenInstancePtr
        (fun si => { si with nestedRouteCount := 0 })) s.screenInstancePtr =
      some prevTop
    rw [e1, e2, getAtInt_mapAtInt, if_neg (by omega)]
    unfold getAtInt
    rw [if_pos hp0, List.getElem?_append, List.length_take, if_pos (by omega),
      List.getElem?_take, if_pos (by omega)]
    exact (getAtInt_nonneg_iff _ _ _ hp0).mp htop

/-- Witness for C6: on `[A]` with pointer 0, push `"C"` then process one
backward event resolving to A's URL: the pointer is back at 0 and A is
untouched. -/
theorem C6_witness :
    getAtInt c1State.screenInstances c1State.screenInstancePtr = some instA ∧
    (onHistoryPopBackward c3Loc (pushScreen pushC c1State)).screenInstancePtr =
      c1State.screenInstancePtr ∧
    getAtInt (onHistoryPopBackward c3Loc (pushScreen pushC c1State)).screenInstances
        c1State.screenInstancePtr = some instA :=
  ⟨by decide,
    (C6_push_then_backward_roundtrip c1State pushC c3Loc instA ("scrHome")
      (by decide) (by decide) (by decide) (by decide) rfl).1,
    (C6_push_then_backward_roundtrip c1State pushC c3Loc instA ("scrHome")
      (by decide) (by decide) (by decide) (by decide) rfl).2⟩

/-! ### C4: pointer bounds along operation sequences -/

/-- C4 counterexample: from the initial state, push `"A"` and then pop with
depth 2 (a depth the History Bridge would never emit): the pointer lands
at -2, outside [-1, length-1], so the claim fails for unrestricted pop
depths. -/
theorem C4_counterexample :
    ¬ ptrInBounds
      (applyOps [StackOp.push pushA, StackOp.pop 2 none] initialStackState) := by
  decide

theorem applyOp_preserves_ptrInBounds (s : StackState) (op : StackOp)
    (hb : ptrInBounds s) (hok : opOkB s op = true) :
    ptrInBounds (applyOp op s) := by
  obtain ⟨hb1, hb2⟩ := hb
  cases op with
  | push p =>
    show ptrInBounds (pushScreen p s)
    cases hfind : findIdxOpt (fun si => si.id == p.screenInstanceId) s.screenInstances with
    | none =>
      rw [pushScreen_missing hfind]
      unfold ptrInBounds
      constructor
      · show -1 ≤ s.screenInstancePtr + 1
        omega
      · show s.screenInstancePtr + 1 ≤
          (((s.screenInstances.take (s.screenInstancePtr + 1).toNat ++
            [payloadInstance p]).length : Int)) - 1
        rw [List.length_append, List.length_take, List.length_singleton]
        omega
    | some i =>
      rw [pushScreen_found hfind]
      have hi := findIdxOpt_lt_length hfind
      unfold ptrInBounds
      constructor
      · show (-1 : Int) ≤ (i : Int)
        omega
      · show (i : Int) ≤ (s.screenInstances.length : Int) - 1
        omega
  | replaceOp p =>
    show ptrInBounds (replaceScreen p s)
    unfold ptrInBounds
    constructor
    · exact hb1
    · show s.screenInstancePtr ≤
        (((s.screenInstances.take (s.screenInstancePtr - 1 + 1).toNat ++
          [payloadInstance p]).length : Int)) - 1
      rw [List.length_append, List.length_take, List.length_singleton]
      omega
  | pop d t =>
    have hok2 : 1 ≤ d ∧ d ≤ s.screenInstancePtr + 1 := by
      simpa [opOkB] using hok
    show ptrInBounds (popScreen d t s)
    unfold ptrInBounds
    rw [popScreen_ptr, popScreen_screenInstances]
    omega

theorem validOps_preserves_ptrInBounds :
    ∀ (ops : List StackOp) (s : StackState), ptrInBounds s →
      validOpsB s ops = true → ptrInBounds (applyOps ops s) := by
  intro ops
  induction ops with
  | nil =>
    intro s hb _
    exact hb
  | cons op rest ih =>
    intro s hb hv
    simp only [validOpsB, Bool.and_eq_true] at hv
    show ptrInBounds (applyOps rest (applyOp op s))
    exact ih _ (applyOp_preserves_ptrInBounds s op hb hv.1) hv.2

/-- C4 (amended): for every sequence of push, pop and replace operations
starting from the initial state in which each pop's depth `d` satisfies
`1 ≤ d ≤ pointer + 1` at the moment it runs — exactly the clamping the
History Bridge guarantees, since it never emits a backward event past the
root — the pointer stays within [-1, length-1]. -/
theorem C4_pointer_bounds (ops : List StackOp)
    (h : validOpsB initialStackState ops = true) :
    ptrInBounds (applyOps ops initialStackState) :=
  validOps_preserves_ptrInBounds ops initialStackState (by decide) h

/-- Witness for the amended C4: push `"A"` then pop one screen. -/
theorem C4_witness :
    validOpsB initialStackState [StackOp.push pushA, StackOp.pop 1 none] = true ∧
    ptrInBounds
      (applyOps [StackOp.push pushA, StackOp.pop 1 none] initialStackState) :=
  ⟨by decide, C4_pointer_bounds [StackOp.push pushA, StackOp.pop 1 none] (by decide)⟩

end Karrotframe
